import Mathlib

/-!
Shallow embedding of the chip8 virtual machine (src/vm.rs, src/extensions.rs,
src/superchip.rs, src/xo.rs) and verification of its specification claims.

Machine integers are modelled as `Nat` with explicit `% 2^w` where the Rust
code performs wrapping arithmetic.  Fixed-size arrays (`memory`, `registers`,
`stack`, `screen`, the two planes, `keys`, `rpl_flags`) are modelled as total
functions out of `Nat`; every memory access the Rust code performs through a
bounds-checked path (`bail!`) is modelled as an `Except` failure with a
`fault` value, while an unchecked Rust array index that would abort the
process (an index-out-of-bounds panic) is modelled as the distinct `oob`
value.
-/

/-- Modelled from the spec: the numeric constants of the missing `src/conf.rs`
module (only declarations of it are visible in `src/`).  The spec fixes the
memory size (4096 bytes), register count (16), stack capacity (16 entries),
keypad size (16), low resolution 64×32, high resolution 128×64, the plane
buffers "same maximum size as the display buffer" (so 128×64), the flag
storage (8 bytes), and the program start offset 0x200. -/
def RAM_SIZE : Nat := 4096

/-- Modelled from the spec: program load offset. -/
def START_ADDR : Nat := 0x200

/-- Modelled from the spec: stack capacity. -/
def STACK_SIZE : Nat := 16

/-- Modelled from the spec: number of keypad keys. -/
def KEYS_COUNT : Nat := 16

/-- Modelled from the spec: low-resolution width. -/
def SCREEN_WIDTH : Nat := 64

/-- Modelled from the spec: low-resolution height. -/
def SCREEN_HEIGHT : Nat := 32

/-- Modelled from the spec: high-resolution width (also the fixed row stride
of every display index computation). -/
def HI_RES_WIDTH : Nat := 128

/-- Modelled from the spec: high-resolution height. -/
def HI_RES_HEIGHT : Nat := 64

/-- Modelled from the spec: XO plane width (planes have the same maximum size
as the display buffer). -/
def XO_RES_WIDTH : Nat := 128

/-- Modelled from the spec: XO plane height. -/
def XO_RES_HEIGHT : Nat := 64

/-- Modelled from the spec: size of the persistent flag bank. -/
def FLAG_COUNT : Nat := 8

/-- Modelled from the spec: base address of the large font glyphs; the exact
value is not fixed by the spec and does not affect any claim (it is only added
into the index register by the FX30 opcodes). -/
def LARGE_FONT_BASE_ADDR : Nat := 80

/-- `HI_RES_HEIGHT * HI_RES_WIDTH`, the capacity of the screen buffer. -/
def MAX_SCREEN_SIZE : Nat := HI_RES_HEIGHT * HI_RES_WIDTH

/-- `XO_RES_HEIGHT * XO_RES_WIDTH`, the capacity of each plane buffer. -/
def XO_SCREEN_SIZE : Nat := XO_RES_HEIGHT * XO_RES_WIDTH

/-- How a single execution step can fail.  `fault msg` models a Rust
`bail!(msg)` (an error value returned through `Result`); `oob` models an
unchecked array index out of bounds, which in the Rust program is a panic
that aborts the process rather than an error returned to the caller. -/
inductive StepErr where
  | fault (msg : String)
  | oob
deriving DecidableEq

/-- The machine state, mirroring `CpuState` of src/vm.rs field by field. -/
structure CpuState where
  pc : Nat
  memory : Nat → Nat
  screen : Nat → Bool
  currentWidth : Nat
  currentHeight : Nat
  registers : Nat → Nat
  iRegister : Nat
  sp : Nat
  stack : Nat → Nat
  keys : Nat → Bool
  delayTimer : Nat
  soundTimer : Nat
  rplFlags : Nat → Nat
  plane1 : Nat → Bool
  plane2 : Nat → Bool
  planeMask : Nat

/-- Pointwise update of a register/memory/stack-style array. -/
def setAt (f : Nat → Nat) (i v : Nat) : Nat → Nat :=
  fun j => if j = i then v else f j

/-- Pointwise update of a boolean (screen/plane) array. -/
def setPix (f : Nat → Bool) (i : Nat) (v : Bool) : Nat → Bool :=
  fun j => if j = i then v else f j

/-- Bounds-checked memory read (`memory[a]`); an out-of-bounds index is a
Rust panic, modelled as `oob`. -/
def memRead (m : Nat → Nat) (a : Nat) : Except StepErr Nat :=
  if a < RAM_SIZE then .ok (m a) else .error .oob

/-- Bounds-checked memory write (`memory[a] = v`). -/
def memWrite (m : Nat → Nat) (a v : Nat) : Except StepErr (Nat → Nat) :=
  if a < RAM_SIZE then .ok (setAt m a v) else .error .oob

/-- `Chip8VM::push_to_stack` (src/vm.rs lines 469-476). -/
def pushToStack (s : CpuState) (val : Nat) : Except StepErr CpuState :=
  if STACK_SIZE ≤ s.sp then .error (.fault "Stack overflow")
  else .ok { s with stack := setAt s.stack s.sp val, sp := s.sp + 1 }

/-- `Chip8VM::pop_from_stack` (src/vm.rs lines 478-484), returning the popped
value together with the updated state. -/
def popFromStack (s : CpuState) : Except StepErr (Nat × CpuState) :=
  if s.sp = 0 then .error (.fault "Stack underflow")
  else .ok (s.stack (s.sp - 1), { s with sp := s.sp - 1 })

/-- Inner loop of the CLS opcode: clear columns `0..c` of screen row `y`. -/
def clearCols (sc : Nat → Bool) (y : Nat) : Nat → (Nat → Bool)
  | 0 => sc
  | c + 1 => setPix (clearCols sc y c) (c + y * HI_RES_WIDTH) false

/-- Outer loop of the CLS opcode: clear rows `0..h`, each `w` columns wide
(src/vm.rs lines 219-228). -/
def clearRows (sc : Nat → Bool) (w : Nat) : Nat → (Nat → Bool)
  | 0 => sc
  | y + 1 => clearCols (clearRows sc w y) y w

/-- Inner loop of the DXYN draw (src/vm.rs lines 351-361): columns `0..c` of
the sprite byte `pixels` for sprite row `r`, threading screen and the
collision flag. -/
def drawCols (sc : Nat → Bool) (vf : Nat) (pixels xc yc r w h : Nat) :
    Nat → ((Nat → Bool) × Nat)
  | 0 => (sc, vf)
  | c + 1 =>
      let p := drawCols sc vf pixels xc yc r w h c
      if pixels / 2 ^ (7 - c) % 2 = 1 then
        let idx := (xc + c) % w + ((yc + r) % h) * HI_RES_WIDTH
        (setPix p.1 idx (!(p.1 idx)), if p.1 idx = true then 1 else p.2)
      else p

/-- Outer loop of the DXYN draw (src/vm.rs lines 343-362): rows `0..n`, with
the source's bounds check on each sprite byte address. -/
def drawRows (mem : Nat → Nat) (sc : Nat → Bool) (vf i xc yc w h : Nat) :
    Nat → Except StepErr ((Nat → Bool) × Nat)
  | 0 => .ok (sc, vf)
  | k + 1 =>
      match drawRows mem sc vf i xc yc w h k with
      | .error e => .error e
      | .ok p =>
          if i + k < RAM_SIZE then
            .ok (drawCols p.1 p.2 (mem (i + k)) xc yc k w h 8)
          else .error (.fault "Memory access out of bounds for sprite draw")

/-- The FX0A key scan (src/vm.rs lines 394-400): first pressed key among
`i, i+1, ...` with `fuel` indices left to try. -/
def findKeyAux (keys : Nat → Bool) : Nat → Nat → Option Nat
  | _, 0 => none
  | i, fuel + 1 => if keys i = true then some i else findKeyAux keys (i + 1) fuel

/-- First pressed key among the 16 keypad keys, if any. -/
def findFirstKey (keys : Nat → Bool) : Option Nat :=
  findKeyAux keys 0 KEYS_COUNT

/-- The FX55 loop (src/vm.rs lines 448-450): write registers `0..=k` to
memory at `i..=i+k`. -/
def storeRegs (m : Nat → Nat) (regs : Nat → Nat) (i : Nat) :
    Nat → Except StepErr (Nat → Nat)
  | 0 => memWrite m i (regs 0)
  | k + 1 =>
      match storeRegs m regs i k with
      | .error e => .error e
      | .ok m2 => memWrite m2 (i + (k + 1)) (regs (k + 1))

/-- The FX65 loop (src/vm.rs lines 459-461): load registers `0..=k` from
memory at `i..=i+k`. -/
def loadRegs (m : Nat → Nat) (regs : Nat → Nat) (i : Nat) :
    Nat → Except StepErr (Nat → Nat)
  | 0 =>
      match memRead m i with
      | .error e => .error e
      | .ok v => .ok (setAt regs 0 v)
  | k + 1 =>
      match loadRegs m regs i k with
      | .error e => .error e
      | .ok r2 =>
          match memRead m (i + (k + 1)) with
          | .error e => .error e
          | .ok v => .ok (setAt r2 (k + 1) v)

/-- The opcode digit `d1` (highest nibble). -/
def dig1 (op : Nat) : Nat := op / 4096 % 16

/-- The opcode digit `d2`. -/
def dig2 (op : Nat) : Nat := op / 256 % 16

/-- The opcode digit `d3`. -/
def dig3 (op : Nat) : Nat := op / 16 % 16

/-- The opcode digit `d4` (lowest nibble). -/
def dig4 (op : Nat) : Nat := op % 16

/-- Build a 16-bit opcode from its four nibbles. -/
def mkOp (a b c d : Nat) : Nat := 4096 * a + 256 * b + 16 * c + d

/-- The body of `Chip8VM::execute`'s base opcode table (src/vm.rs lines
207-466), dispatching on the already-extracted digit tuple.  `rng` supplies
the pseudo-random byte consumed by the CXNN opcode. -/
def execDecoded (rng : Nat) (s : CpuState) (op d1 d2 d3 d4 : Nat) :
    Except StepErr CpuState :=
  let x := d2
  let y := d3
  let n := d4
  -- NOP
  if d1 = 0 ∧ d2 = 0 ∧ d3 = 0 ∧ d4 = 0 then .ok s
  -- CLS: 0x00E0
  else if d1 = 0 ∧ d2 = 0 ∧ d3 = 0xE ∧ d4 = 0 then
    .ok { s with screen := clearRows s.screen s.currentWidth s.currentHeight }
  -- RET: 0x00EE
  else if d1 = 0 ∧ d2 = 0 ∧ d3 = 0xE ∧ d4 = 0xE then
    match popFromStack s with
    | .error e => .error e
    | .ok (v, s2) => .ok { s2 with pc := v }
  -- JMP NNN: 0x1NNN
  else if d1 = 1 then .ok { s with pc := op % 4096 }
  -- CALL NNN: 0x2NNN
  else if d1 = 2 then
    match pushToStack s s.pc with
    | .error e => .error e
    | .ok s2 => .ok { s2 with pc := op % 4096 }
  -- SKIP VX == NN: 0x3XNN
  else if d1 = 3 then
    .ok (if s.registers x = op % 256 then { s with pc := s.pc + 2 } else s)
  -- SKIP VX != NN: 0x4XNN
  else if d1 = 4 then
    .ok (if s.registers x ≠ op % 256 then { s with pc := s.pc + 2 } else s)
  -- SKIP VX == VY: 0x5XY0
  else if d1 = 5 ∧ d4 = 0 then
    .ok (if s.registers x = s.registers y then { s with pc := s.pc + 2 } else s)
  -- VX = NN: 0x6XNN
  else if d1 = 6 then .ok { s with registers := setAt s.registers x (op % 256) }
  -- VX += NN: 0x7XNN (wrapping add)
  else if d1 = 7 then
    .ok { s with registers := setAt s.registers x ((s.registers x + op % 256) % 256) }
  -- 8XY0: VX = VY
  else if d1 = 8 ∧ d4 = 0 then
    .ok { s with registers := setAt s.registers x (s.registers y) }
  -- 8XY1: VX |= VY
  else if d1 = 8 ∧ d4 = 1 then
    .ok { s with registers := setAt s.registers x (Nat.lor (s.registers x) (s.registers y)) }
  -- 8XY2: VX &= VY
  else if d1 = 8 ∧ d4 = 2 then
    .ok { s with registers := setAt s.registers x (Nat.land (s.registers x) (s.registers y)) }
  -- 8XY3: VX ^= VY
  else if d1 = 8 ∧ d4 = 3 then
    .ok { s with registers := setAt s.registers x (Nat.xor (s.registers x) (s.registers y)) }
  -- 8XY4: VX += VY with carry into VF (overflowing_add, then VF written)
  else if d1 = 8 ∧ d4 = 4 then
    let sum := s.registers x + s.registers y
    let r1 := setAt s.registers x (sum % 256)
    .ok { s with registers := setAt r1 15 (if 256 ≤ sum then 1 else 0) }
  -- 8XY5: VX -= VY, VF = 1 iff no borrow (overflowing_sub, then VF written)
  else if d1 = 8 ∧ d4 = 5 then
    let r1 := setAt s.registers x ((s.registers x + 256 - s.registers y) % 256)
    .ok { s with registers :=
            setAt r1 15 (if s.registers x < s.registers y then 0 else 1) }
  -- 8XY6: VF = VX & 1, then VX >>= 1 (the shift reads the updated array)
  else if d1 = 8 ∧ d4 = 6 then
    let r1 := setAt s.registers 15 (s.registers x % 2)
    .ok { s with registers := setAt r1 x (r1 x / 2) }
  -- 8XY7: VX = VY - VX, VF = 1 iff no borrow
  else if d1 = 8 ∧ d4 = 7 then
    let r1 := setAt s.registers x ((s.registers y + 256 - s.registers x) % 256)
    .ok { s with registers :=
            setAt r1 15 (if s.registers y < s.registers x then 0 else 1) }
  -- 8XYE: VF = (VX >> 7) & 1, then VX <<= 1 (the shift reads the updated array)
  else if d1 = 8 ∧ d4 = 0xE then
    let r1 := setAt s.registers 15 (s.registers x / 128 % 2)
    .ok { s with registers := setAt r1 x (r1 x * 2 % 256) }
  -- SKIP if VX != VY: 0x9XY0
  else if d1 = 9 ∧ d4 = 0 then
    .ok (if s.registers x ≠ s.registers y then { s with pc := s.pc + 2 } else s)
  -- I = NNN: 0xANNN
  else if d1 = 0xA then .ok { s with iRegister := op % 4096 }
  -- JMP to V0 + NNN: 0xBNNN
  else if d1 = 0xB then .ok { s with pc := s.registers 0 + op % 4096 }
  -- VX = rand() & NN: 0xCXNN
  else if d1 = 0xC then
    .ok { s with registers := setAt s.registers x (Nat.land (rng % 256) (op % 256)) }
  -- DRAW sprite: 0xDXYN
  else if d1 = 0xD then
    let r1 := setAt s.registers 15 0
    match drawRows s.memory s.screen 0 s.iRegister (r1 x) (r1 y)
        s.currentWidth s.currentHeight n with
    | .error e => .error e
    | .ok p => .ok { s with screen := p.1, registers := setAt r1 15 p.2 }
  -- EX9E: skip if key pressed
  else if d1 = 0xE ∧ d3 = 9 ∧ d4 = 0xE then
    if KEYS_COUNT ≤ s.registers x then
      .error (.fault "Invalid key index in register VX")
    else .ok (if s.keys (s.registers x) = true then { s with pc := s.pc + 2 } else s)
  -- EXA1: skip if key not pressed
  else if d1 = 0xE ∧ d3 = 0xA ∧ d4 = 1 then
    if KEYS_COUNT ≤ s.registers x then
      .error (.fault "Invalid key index in register VX")
    else .ok (if s.keys (s.registers x) = false then { s with pc := s.pc + 2 } else s)
  -- FX07: VX = DT
  else if d1 = 0xF ∧ d3 = 0 ∧ d4 = 7 then
    .ok { s with registers := setAt s.registers x s.delayTimer }
  -- FX0A: wait for key press
  else if d1 = 0xF ∧ d3 = 0 ∧ d4 = 0xA then
    match findFirstKey s.keys with
    | some key => .ok { s with registers := setAt s.registers x key }
    | none => .ok { s with pc := s.pc - 2 }
  -- FX15: DT = VX
  else if d1 = 0xF ∧ d3 = 1 ∧ d4 = 5 then .ok { s with delayTimer := s.registers x }
  -- FX18: ST = VX
  else if d1 = 0xF ∧ d3 = 1 ∧ d4 = 8 then .ok { s with soundTimer := s.registers x }
  -- FX1E: I += VX (wrapping 16-bit add)
  else if d1 = 0xF ∧ d3 = 1 ∧ d4 = 0xE then
    .ok { s with iRegister := (s.iRegister + s.registers x) % 65536 }
  -- FX29: I = font address for VX
  else if d1 = 0xF ∧ d3 = 2 ∧ d4 = 9 then .ok { s with iRegister := s.registers x * 5 }
  -- FX33: BCD of VX.  The source (src/vm.rs lines 433-440) performs the
  -- three writes with no bounds check, so an index at or past RAM_SIZE is a
  -- panic (`oob`), not a returned fault.
  else if d1 = 0xF ∧ d3 = 3 ∧ d4 = 3 then
    match memWrite s.memory s.iRegister (s.registers x / 100) with
    | .error e => .error e
    | .ok m1 =>
        match memWrite m1 (s.iRegister + 1) (s.registers x / 10 % 10) with
        | .error e => .error e
        | .ok m2 =>
            match memWrite m2 (s.iRegister + 2) (s.registers x % 10) with
            | .error e => .error e
            | .ok m3 => .ok { s with memory := m3 }
  -- FX55: store V0..VX
  else if d1 = 0xF ∧ d3 = 5 ∧ d4 = 5 then
    if RAM_SIZE ≤ s.iRegister + x then .error (.fault "Memory store out of bounds")
    else
      match storeRegs s.memory s.registers s.iRegister x with
      | .error e => .error e
      | .ok m2 => .ok { s with memory := m2 }
  -- FX65: load V0..VX
  else if d1 = 0xF ∧ d3 = 6 ∧ d4 = 5 then
    if RAM_SIZE ≤ s.iRegister + x then .error (.fault "Memory load out of bounds")
    else
      match loadRegs s.memory s.registers s.iRegister x with
      | .error e => .error e
      | .ok r2 => .ok { s with registers := r2 }
  else .error (.fault "Unimplemented or unknown opcode")

/-- The base opcode table of `Chip8VM::execute`, entered once no active
extension consumed the opcode. -/
def executeBase (rng : Nat) (s : CpuState) (op : Nat) : Except StepErr CpuState :=
  execDecoded rng s op (dig1 op) (dig2 op) (dig3 op) (dig4 op)

/-- An extension (trait `Extension` of src/extensions.rs): an activation flag
and a per-opcode handler which returns `true` when the opcode was consumed,
`false` when it declined.  The handler receives the full machine state, as the
`VmContext` built by `CpuState::get_context` grants access to every field. -/
structure Extension where
  isActive : Bool
  handle : CpuState → Nat → Except StepErr (Bool × CpuState)

/-- The extension dispatch loop of `Chip8VM::execute` (src/vm.rs lines
197-206): offer the opcode to each active extension in registration order;
the first `Ok(true)` stops the loop, an error propagates, and a declining
handler may still have mutated the state. -/
def runExtensions (s : CpuState) (op : Nat) :
    List Extension → Except StepErr (Bool × CpuState)
  | [] => .ok (false, s)
  | e :: rest =>
      if e.isActive = true then
        match e.handle s op with
        | .error err => .error err
        | .ok (true, s2) => .ok (true, s2)
        | .ok (false, s2) => runExtensions s2 op rest
      else runExtensions s op rest

/-- `Chip8VM::execute` (src/vm.rs lines 196-467): extensions first, then the
base opcode table. -/
def execute (exts : List Extension) (rng : Nat) (s : CpuState) (op : Nat) :
    Except StepErr CpuState :=
  match runExtensions s op exts with
  | .error e => .error e
  | .ok (true, s2) => .ok s2
  | .ok (false, s2) => executeBase rng s2 op

/-- `Chip8VM::fetch` (src/vm.rs lines 188-194): read the big-endian opcode at
`pc` and advance `pc` by 2.  For byte values `(hi << 8) | lo` equals
`hi * 256 + lo`. -/
def fetch (s : CpuState) : Except StepErr (Nat × CpuState) :=
  match memRead s.memory s.pc with
  | .error e => .error e
  | .ok hi =>
      match memRead s.memory (s.pc + 1) with
      | .error e => .error e
      | .ok lo => .ok (hi * 256 + lo, { s with pc := s.pc + 2 })

/-- `Chip8VM::tick` (src/vm.rs lines 143-146): fetch then execute. -/
def tick (exts : List Extension) (rng : Nat) (s : CpuState) : Except StepErr CpuState :=
  match fetch s with
  | .error e => .error e
  | .ok (op, s2) => execute exts rng s2 op

/-- `Chip8VM::tick_timers` (src/vm.rs lines 148-161): saturating decrement of
both timers, returning the post-decrement pair. -/
def tickTimers (s : CpuState) : (Nat × Nat) × CpuState :=
  let d := if 0 < s.delayTimer then s.delayTimer - 1 else s.delayTimer
  let st := if 0 < s.soundTimer then s.soundTimer - 1 else s.soundTimer
  ((d, st), { s with delayTimer := d, soundTimer := st })

/-- Bit `c` (counting from the most significant) of the 16-bit sprite row
`(hi, lo)`: `hi & (0x80 >> c)` for `c < 8`, else `lo & (0x80 >> (c - 8))`. -/
def bit16 (hi lo c : Nat) : Bool :=
  if c < 8 then hi / 2 ^ (7 - c) % 2 = 1 else lo / 2 ^ (15 - c) % 2 = 1

/-- Inner loop of `SuperChip8::draw_16x16_sprite` (src/superchip.rs lines
40-58): columns `0..c` of the sprite row `(hi, lo)`.  The source computes the
target row as `(y_coord + col) % screen_height` — the column counter `col`,
not the row counter, supplies the vertical offset (src/superchip.rs line 49) —
and this model mirrors that computation exactly. -/
def superDraw16Cols (sc : Nat → Bool) (vf : Nat) (hi lo xc yc w h : Nat) :
    Nat → ((Nat → Bool) × Nat)
  | 0 => (sc, vf)
  | c + 1 =>
      let p := superDraw16Cols sc vf hi lo xc yc w h c
      if bit16 hi lo c = true then
        let idx := (xc + c) % w + ((yc + c) % h) * HI_RES_WIDTH
        (setPix p.1 idx (!(p.1 idx)), if p.1 idx = true then 1 else p.2)
      else p

/-- Outer loop of `SuperChip8::draw_16x16_sprite` (src/superchip.rs lines
30-59): rows `0..k`, two sprite bytes per row at `i + 2*row`, with the
source's bounds check. -/
def superDraw16Rows (mem : Nat → Nat) (sc : Nat → Bool) (vf i xc yc w h : Nat) :
    Nat → Except StepErr ((Nat → Bool) × Nat)
  | 0 => .ok (sc, vf)
  | k + 1 =>
      match superDraw16Rows mem sc vf i xc yc w h k with
      | .error e => .error e
      | .ok p =>
          if i + k * 2 + 1 < RAM_SIZE then
            .ok (superDraw16Cols p.1 p.2 (mem (i + k * 2)) (mem (i + k * 2 + 1))
                  xc yc w h 16)
          else .error (.fault "Memory access out of bounds for 16x16 sprite draw")

/-- `SuperChip8::draw_16x16_sprite` (src/superchip.rs lines 20-62). -/
def superDraw16 (s : CpuState) (x y : Nat) : Except StepErr CpuState :=
  let r1 := setAt s.registers 15 0
  match superDraw16Rows s.memory s.screen 0 s.iRegister (r1 x) (r1 y)
      s.currentWidth s.currentHeight 16 with
  | .error e => .error e
  | .ok p => .ok { s with screen := p.1, registers := setAt r1 15 p.2 }

/-- The Super-CHIP FX75 loop: `rpl_flags[idx] = registers[idx]` for
`idx in 0..=k`; `rpl_flags` has only `FLAG_COUNT = 8` slots, so an index past
7 is an unchecked Rust panic (`oob`). -/
def rplStore (flags regs : Nat → Nat) : Nat → Except StepErr (Nat → Nat)
  | 0 => if 0 < FLAG_COUNT then .ok (setAt flags 0 (regs 0)) else .error .oob
  | k + 1 =>
      match rplStore flags regs k with
      | .error e => .error e
      | .ok f2 =>
          if k + 1 < FLAG_COUNT then .ok (setAt f2 (k + 1) (regs (k + 1)))
          else .error .oob

/-- The Super-CHIP FX85 loop: `registers[idx] = rpl_flags[idx]` for
`idx in 0..=k`, same bounds behaviour as `rplStore`. -/
def rplLoad (flags regs : Nat → Nat) : Nat → Except StepErr (Nat → Nat)
  | 0 => if 0 < FLAG_COUNT then .ok (setAt regs 0 (flags 0)) else .error .oob
  | k + 1 =>
      match rplLoad flags regs k with
      | .error e => .error e
      | .ok r2 =>
          if k + 1 < FLAG_COUNT then .ok (setAt r2 (k + 1) (flags (k + 1)))
          else .error .oob

/-- `SuperChip8::handle_instruction` (src/superchip.rs lines 78-191), arm for
arm in source order.  The 00CN arm with `n < SCREEN_HEIGHT` ends in
`ctx.screen.copy_from_slice(&new_screen)` where the two slices have lengths
8192 and 2048: that `copy_from_slice` panics on the length mismatch, so the
arm is modelled as `oob`.  The 00FB arm computes a scrolled buffer it never
writes back, leaving the state unchanged; the 00FC arm underflows
`dst_row_start + col - SHIFT` at row 0, column 0, a panic (`oob`). -/
def superHandle (active : Bool) (s : CpuState) (op : Nat) :
    Except StepErr (Bool × CpuState) :=
  if active = false then .ok (false, s)
  else
    match dig1 op, dig2 op, dig3 op, dig4 op with
    -- 00FD: exit interpreter
    | 0, 0, 0xF, 0xD => .error (.fault "S-CHIP Exit instruction (00FD) encountered.")
    -- 00FE: disable extended screen
    | 0, 0, 0xF, 0xE =>
        .ok (true, { s with currentWidth := SCREEN_WIDTH, currentHeight := SCREEN_HEIGHT })
    -- 00FF: enable extended screen
    | 0, 0, 0xF, 0xF =>
        .ok (true, { s with currentWidth := HI_RES_WIDTH, currentHeight := HI_RES_HEIGHT })
    -- DXY0: draw 16x16 sprite
    | 0xD, x, y, 0 =>
        match superDraw16 s x y with
        | .error e => .error e
        | .ok s2 => .ok (true, s2)
    -- 00CN: scroll down n
    | 0, 0, 0xC, n =>
        if SCREEN_HEIGHT ≤ n then .ok (true, { s with screen := fun _ => false })
        else .error .oob
    -- 00FB: scroll right 4 pixels (result buffer discarded by the source)
    | 0, 0, 0xF, 0xB => .ok (true, s)
    -- 00FC: scroll left 4 pixels (index underflow panic in the source)
    | 0, 0, 0xF, 0xC => .error .oob
    -- FX30: I = large font address for VX
    | 0xF, x, 3, 0 =>
        .ok (true, { s with iRegister := LARGE_FONT_BASE_ADDR + s.registers x * 10 })
    -- FX75: store V0..VX into the flag bank
    | 0xF, x, 7, 5 =>
        match rplStore s.rplFlags s.registers x with
        | .error e => .error e
        | .ok f2 => .ok (true, { s with rplFlags := f2 })
    -- FX85: load V0..VX from the flag bank
    | 0xF, x, 8, 5 =>
        match rplLoad s.rplFlags s.registers x with
        | .error e => .error e
        | .ok r2 => .ok (true, { s with registers := r2 })
    | _, _, _, _ => .ok (false, s)

/-- The Super-CHIP extension object (struct `SuperChip8`). -/
def superExt (active : Bool) : Extension :=
  { isActive := active, handle := superHandle active }

/-- One cell copy of an XO scroll (`src/xo.rs`): copy `src` to `dst` on the
planes selected by `mask`, guarded by the source's joint bounds check. -/
def planeCopyCell (mask : Nat) (p : (Nat → Bool) × (Nat → Bool)) (src dst : Nat) :
    ((Nat → Bool) × (Nat → Bool)) :=
  if src < XO_SCREEN_SIZE ∧ dst < XO_SCREEN_SIZE then
    (if mask % 2 = 1 then setPix p.1 dst (p.1 src) else p.1,
     if mask / 2 % 2 = 1 then setPix p.2 dst (p.2 src) else p.2)
  else p

/-- One cell clear of an XO scroll: set `idx` to false on the selected
planes, guarded by the source's bounds check. -/
def planeZeroCell (mask : Nat) (p : (Nat → Bool) × (Nat → Bool)) (idx : Nat) :
    ((Nat → Bool) × (Nat → Bool)) :=
  if idx < XO_SCREEN_SIZE then
    (if mask % 2 = 1 then setPix p.1 idx false else p.1,
     if mask / 2 % 2 = 1 then setPix p.2 idx false else p.2)
  else p

/-- Columns `0..c` of one shifted row of `XoChip::scroll_down` (src/xo.rs
lines 66-78): copy row `row - n` to `row`. -/
def xoScrollDownCols (mask : Nat) (p : (Nat → Bool) × (Nat → Bool)) (n row w : Nat) :
    Nat → ((Nat → Bool) × (Nat → Bool))
  | 0 => p
  | c + 1 =>
      planeCopyCell mask (xoScrollDownCols mask p n row w c)
        (c + (row - n) * w) (c + row * w)

/-- The shifting loop of `XoChip::scroll_down` (src/xo.rs lines 65-79): rows
`n + j - 1, ..., n` processed in descending order (`j` rows remaining). -/
def xoScrollDownRows (mask : Nat) (p : (Nat → Bool) × (Nat → Bool)) (n w : Nat) :
    Nat → ((Nat → Bool) × (Nat → Bool))
  | 0 => p
  | j + 1 => xoScrollDownRows mask (xoScrollDownCols mask p n (n + j) w w) n w j

/-- Columns `0..c` of one cleared row of `XoChip::scroll_down` (src/xo.rs
lines 82-92). -/
def xoZeroCols (mask : Nat) (p : (Nat → Bool) × (Nat → Bool)) (row w : Nat) :
    Nat → ((Nat → Bool) × (Nat → Bool))
  | 0 => p
  | c + 1 => planeZeroCell mask (xoZeroCols mask p row w c) (c + row * w)

/-- The clearing loop of `XoChip::scroll_down` (src/xo.rs lines 81-93): rows
`0..r` ascending. -/
def xoZeroRows (mask : Nat) (p : (Nat → Bool) × (Nat → Bool)) (w : Nat) :
    Nat → ((Nat → Bool) × (Nat → Bool))
  | 0 => p
  | r + 1 => xoZeroCols mask (xoZeroRows mask p w r) r w w

/-- `XoChip::scroll_down` (src/xo.rs lines 49-96): scroll the selected planes
down by `n` rows; `n ≥ current_height` clears the selected planes and the
whole base screen instead. -/
def xoScrollDown (s : CpuState) (n : Nat) : CpuState :=
  if s.currentHeight ≤ n then
    { s with
      plane1 := if s.planeMask % 2 = 1 then fun _ => false else s.plane1,
      plane2 := if s.planeMask / 2 % 2 = 1 then fun _ => false else s.plane2,
      screen := fun _ => false }
  else
    let w := s.currentWidth
    let p1 := xoScrollDownRows s.planeMask (s.plane1, s.plane2) n w
                (s.currentHeight - n)
    let p2 := xoZeroRows s.planeMask p1 w n
    { s with plane1 := p2.1, plane2 := p2.2 }

/-- Copy columns of one row of `XoChip::scroll_right` (src/xo.rs lines
105-117): columns `w - 1, ..., 4` in descending order (`j` columns
remaining), copying `col - 4` to `col`. -/
def xoScrollRightCols (mask : Nat) (p : (Nat → Bool) × (Nat → Bool)) (row w : Nat) :
    Nat → ((Nat → Bool) × (Nat → Bool))
  | 0 => p
  | j + 1 =>
      xoScrollRightCols mask
        (planeCopyCell mask p (j + row * w) (4 + j + row * w)) row w j

/-- Clear columns `0..c` at the left edge of one row of `XoChip::scroll_right`
(src/xo.rs lines 119-129). -/
def xoScrollRightZero (mask : Nat) (p : (Nat → Bool) × (Nat → Bool)) (row w : Nat) :
    Nat → ((Nat → Bool) × (Nat → Bool))
  | 0 => p
  | c + 1 => planeZeroCell mask (xoScrollRightZero mask p row w c) (c + row * w)

/-- The row loop of `XoChip::scroll_right` (src/xo.rs lines 104-130): rows
`0..r` ascending, each row first shifted then its left edge cleared. -/
def xoScrollRightRows (mask : Nat) (p : (Nat → Bool) × (Nat → Bool)) (w : Nat) :
    Nat → ((Nat → Bool) × (Nat → Bool))
  | 0 => p
  | r + 1 =>
      let q := xoScrollRightRows mask p w r
      xoScrollRightZero mask (xoScrollRightCols mask q r w (w - 4)) r w 4

/-- `XoChip::scroll_right` (src/xo.rs lines 99-133). -/
def xoScrollRight (s : CpuState) : CpuState :=
  let p := xoScrollRightRows s.planeMask (s.plane1, s.plane2) s.currentWidth
             s.currentHeight
  { s with plane1 := p.1, plane2 := p.2 }

/-- Copy columns `0..c` of one row of `XoChip::scroll_left` (src/xo.rs lines
142-154): copy `col + 4` to `col`, ascending. -/
def xoScrollLeftCols (mask : Nat) (p : (Nat → Bool) × (Nat → Bool)) (row w : Nat) :
    Nat → ((Nat → Bool) × (Nat → Bool))
  | 0 => p
  | c + 1 =>
      planeCopyCell mask (xoScrollLeftCols mask p row w c)
        (c + 4 + row * w) (c + row * w)

/-- Clear the rightmost columns of one row of `XoChip::scroll_left` (src/xo.rs
lines 156-166): columns `w - 4 + j` for `j < c`. -/
def xoScrollLeftZero (mask : Nat) (p : (Nat → Bool) × (Nat → Bool)) (row w : Nat) :
    Nat → ((Nat → Bool) × (Nat → Bool))
  | 0 => p
  | c + 1 =>
      planeZeroCell mask (xoScrollLeftZero mask p row w c) (w - 4 + c + row * w)

/-- The row loop of `XoChip::scroll_left` (src/xo.rs lines 141-167): rows
`0..r` ascending, each row shifted (`w.saturating_sub(4)` copied columns)
then its right edge cleared. -/
def xoScrollLeftRows (mask : Nat) (p : (Nat → Bool) × (Nat → Bool)) (w : Nat) :
    Nat → ((Nat → Bool) × (Nat → Bool))
  | 0 => p
  | r + 1 =>
      let q := xoScrollLeftRows mask p w r
      xoScrollLeftZero mask (xoScrollLeftCols mask q r w (w - 4)) r w
        (w - (w - 4))

/-- `XoChip::scroll_left` (src/xo.rs lines 136-170). -/
def xoScrollLeft (s : CpuState) : CpuState :=
  let p := xoScrollLeftRows s.planeMask (s.plane1, s.plane2) s.currentWidth
             s.currentHeight
  { s with plane1 := p.1, plane2 := p.2 }

/-- Inner loop of `XoChip::draw_sprite` (src/xo.rs lines 232-258): columns
`0..c` of the sprite byte for row `row`, toggling the selected planes and
threading the collision flag (a plane pixel toggled from set to clear sets
the flag). -/
def xoDrawCols (mask : Nat) (st : (Nat → Bool) × (Nat → Bool) × Nat)
    (pixels xc yc row w h : Nat) : Nat → ((Nat → Bool) × (Nat → Bool) × Nat)
  | 0 => st
  | c + 1 =>
      let q := xoDrawCols mask st pixels xc yc row w h c
      if pixels / 2 ^ (7 - c) % 2 = 1 then
        let idx := (xc + c) % w + ((yc + row) % h) * XO_RES_WIDTH
        if XO_SCREEN_SIZE ≤ idx then q
        else
          let q1 :=
            if mask % 2 = 1 then
              (setPix q.1 idx (!(q.1 idx)), q.2.1,
               if q.1 idx = true then 1 else q.2.2)
            else q
          if mask / 2 % 2 = 1 then
            (q1.1, setPix q1.2.1 idx (!(q1.2.1 idx)),
             if q1.2.1 idx = true then 1 else q1.2.2)
          else q1
      else q

/-- Outer loop of `XoChip::draw_sprite` (src/xo.rs lines 223-259): rows
`0..k` with the source's bounds check on each sprite byte address. -/
def xoDrawRows (mask : Nat) (mem : Nat → Nat) (st : (Nat → Bool) × (Nat → Bool) × Nat)
    (i xc yc w h : Nat) : Nat → Except StepErr ((Nat → Bool) × (Nat → Bool) × Nat)
  | 0 => .ok st
  | k + 1 =>
      match xoDrawRows mask mem st i xc yc w h k with
      | .error e => .error e
      | .ok q =>
          if i + k < RAM_SIZE then
            .ok (xoDrawCols mask q (mem (i + k)) xc yc k w h 8)
          else .error (.fault "Memory access out of bounds for sprite draw")

/-- `XoChip::draw_sprite` (src/xo.rs lines 214-262). -/
def xoDrawSprite (s : CpuState) (x y k : Nat) : Except StepErr CpuState :=
  let r1 := setAt s.registers 15 0
  match xoDrawRows s.planeMask s.memory (s.plane1, s.plane2, 0) s.iRegister
      (r1 x) (r1 y) s.currentWidth s.currentHeight k with
  | .error e => .error e
  | .ok q =>
      .ok { s with plane1 := q.1, plane2 := q.2.1, registers := setAt r1 15 q.2.2 }

/-- Inner loop of `XoChip::draw_16x16_sprite` (src/xo.rs lines 286-337):
columns `0..c` of sprite row `row`.  Plane 2 draws the bitmap read from the
second 32-byte region at `i + 32 + 2*row` when both planes are selected
(with its own bounds check, a `bail!`), and mirrors plane 1's bit
otherwise; its collision test inspects the plane value after the conditional
toggle, exactly as the source does. -/
def xoDraw16Cols (mask : Nat) (mem : Nat → Nat)
    (st : (Nat → Bool) × (Nat → Bool) × Nat) (i hi lo xc yc row w h : Nat) :
    Nat → Except StepErr ((Nat → Bool) × (Nat → Bool) × Nat)
  | 0 => .ok st
  | c + 1 =>
      match xoDraw16Cols mask mem st i hi lo xc yc row w h c with
      | .error e => .error e
      | .ok q =>
          if bit16 hi lo c = true then
            let idx := (xc + c) % w + ((yc + row) % h) * XO_RES_WIDTH
            if XO_SCREEN_SIZE ≤ idx then .ok q
            else
              let q1 :=
                if mask % 2 = 1 then
                  (setPix q.1 idx (!(q.1 idx)), q.2.1,
                   if q.1 idx = true then 1 else q.2.2)
                else q
              if mask / 2 % 2 = 1 then
                let bit2 : Except StepErr Bool :=
                  if mask = 3 then
                    if i + 32 + row * 2 + 1 < RAM_SIZE then
                      .ok (bit16 (mem (i + 32 + row * 2)) (mem (i + 32 + row * 2 + 1)) c)
                    else
                      .error (StepErr.fault "Memory access out of bounds for 16x16 sprite plane 2")
                  else .ok (bit16 hi lo c)
                match bit2 with
                | .error e => .error e
                | .ok b2 =>
                    let prev2 := q1.2.1 idx
                    let p2n := if b2 = true then setPix q1.2.1 idx (!prev2) else q1.2.1
                    .ok (q1.1, p2n,
                         if prev2 = true ∧ p2n idx = false then 1 else q1.2.2)
              else .ok q1
          else .ok q

/-- Outer loop of `XoChip::draw_16x16_sprite` (src/xo.rs lines 276-338):
rows `0..k`, two sprite bytes per row, with the source's bounds check. -/
def xoDraw16Rows (mask : Nat) (mem : Nat → Nat)
    (st : (Nat → Bool) × (Nat → Bool) × Nat) (i xc yc w h : Nat) :
    Nat → Except StepErr ((Nat → Bool) × (Nat → Bool) × Nat)
  | 0 => .ok st
  | k + 1 =>
      match xoDraw16Rows mask mem st i xc yc w h k with
      | .error e => .error e
      | .ok q =>
          if i + k * 2 + 1 < RAM_SIZE then
            xoDraw16Cols mask mem q i (mem (i + k * 2)) (mem (i + k * 2 + 1))
              xc yc k w h 16
          else .error (.fault "Memory access out of bounds for 16x16 sprite draw")

/-- `XoChip::draw_16x16_sprite` (src/xo.rs lines 265-341). -/
def xoDraw16 (s : CpuState) (x y : Nat) : Except StepErr CpuState :=
  let r1 := setAt s.registers 15 0
  match xoDraw16Rows s.planeMask s.memory (s.plane1, s.plane2, 0) s.iRegister
      (r1 x) (r1 y) s.currentWidth s.currentHeight 16 with
  | .error e => .error e
  | .ok q =>
      .ok { s with plane1 := q.1, plane2 := q.2.1, registers := setAt r1 15 q.2.2 }

/-- The 5XY2 save loop (src/xo.rs lines 461-466): memory writes are
unchecked in the source, so an address at or past `RAM_SIZE` is a panic. -/
def xoSaveAux (m : Nat → Nat) (regs : Nat → Nat) (x i : Nat) :
    Nat → Except StepErr (Nat → Nat)
  | 0 => .ok m
  | j + 1 =>
      match xoSaveAux m regs x i j with
      | .error e => .error e
      | .ok m1 => memWrite m1 (i + j) (regs (x + j))

/-- The 5XY3 load loop (src/xo.rs lines 476-481), same bounds behaviour. -/
def xoLoadAux (m : Nat → Nat) (regs : Nat → Nat) (x i : Nat) :
    Nat → Except StepErr (Nat → Nat)
  | 0 => .ok regs
  | j + 1 =>
      match xoLoadAux m regs x i j with
      | .error e => .error e
      | .ok r1 =>
          match memRead m (i + j) with
          | .error e => .error e
          | .ok v => .ok (setAt r1 (x + j) v)

/-- `XoChip::play_audio` (src/xo.rs lines 344-361): bounds check, then the
converted waveform is dropped, leaving the state unchanged. -/
def xoPlayAudio (s : CpuState) (x : Nat) : Except StepErr CpuState :=
  if RAM_SIZE < s.iRegister + s.registers x then
    .error (.fault "Audio buffer out of bounds")
  else .ok s

/-- The plane clears shared by the XO resolution switches (src/xo.rs lines
26-31 and 39-44). -/
def xoClearPlanes (s : CpuState) : CpuState :=
  { s with
    plane1 := if s.planeMask % 2 = 1 then fun _ => false else s.plane1,
    plane2 := if s.planeMask / 2 % 2 = 1 then fun _ => false else s.plane2 }

/-- `XoChip::handle_instruction` (src/xo.rs lines 377-487), arm for arm in
source order.  Note that the scroll-group arm pattern `(0, 0, 0xC, n)`
requires the third nibble to be `0xC`, so opcode 0x00FC — whose third nibble
is `0xF` — never reaches it and the `nn == 0xFC` test inside the arm is dead;
0x00FC matches no arm and falls through to the final decline. -/
def xoHandle (active : Bool) (s : CpuState) (op : Nat) :
    Except StepErr (Bool × CpuState) :=
  if active = false then .ok (false, s)
  else
    match dig1 op, dig2 op, dig3 op, dig4 op with
    -- 00FD: exit interpreter
    | 0, 0, 0xF, 0xD => .error (.fault "XO-Chip Exit instruction (00FD) encountered.")
    -- 00FE: low-resolution mode, clearing the selected planes
    | 0, 0, 0xF, 0xE =>
        .ok (true, xoClearPlanes
          { s with currentWidth := SCREEN_WIDTH, currentHeight := SCREEN_HEIGHT })
    -- 00FF: high-resolution mode, clearing the selected planes
    | 0, 0, 0xF, 0xF =>
        .ok (true, xoClearPlanes
          { s with currentWidth := HI_RES_WIDTH, currentHeight := HI_RES_HEIGHT })
    -- 00FB: scroll right 4 pixels
    | 0, 0, 0xF, 0xB => .ok (true, xoScrollRight s)
    -- 00CN: scroll down n (the nn == 0xFC branch is unreachable here)
    | 0, 0, 0xC, n =>
        if op % 256 = 0xFC then .ok (true, xoScrollLeft s)
        else .ok (true, xoScrollDown s n)
    -- DXY0: draw 16x16 sprite
    | 0xD, x, y, 0 =>
        match xoDraw16 s x y with
        | .error e => .error e
        | .ok s2 => .ok (true, s2)
    -- DXYK (K != 0): draw K-row sprite on the selected planes
    | 0xD, x, y, Nat.succ k =>
        match xoDrawSprite s x y (k + 1) with
        | .error e => .error e
        | .ok s2 => .ok (true, s2)
    -- FX01: set the drawing plane bitmask
    | 0xF, x, 0, 1 =>
        .ok (true, { s with planeMask := s.registers x % 4 })
    -- FX30: I = large font address for VX
    | 0xF, x, 3, 0 =>
        .ok (true, { s with iRegister := LARGE_FONT_BASE_ADDR + s.registers x * 10 })
    -- FX0F: audio buffer read (stub)
    | 0xF, x, 0, 0xF =>
        match xoPlayAudio s x with
        | .error e => .error e
        | .ok s2 => .ok (true, s2)
    -- 5XY2: save registers VX..VY to memory at I, advancing I
    | 5, x, y, 2 =>
        if y < x then .ok (false, s)
        else
          match xoSaveAux s.memory s.registers x s.iRegister (y - x + 1) with
          | .error e => .error e
          | .ok m2 =>
              .ok (true, { s with memory := m2, iRegister := s.iRegister + (y - x + 1) })
    -- 5XY3: load registers VX..VY from memory at I, advancing I
    | 5, x, y, 3 =>
        if y < x then .ok (false, s)
        else
          match xoLoadAux s.memory s.registers x s.iRegister (y - x + 1) with
          | .error e => .error e
          | .ok r2 =>
              .ok (true, { s with registers := r2, iRegister := s.iRegister + (y - x + 1) })
    | _, _, _, _ => .ok (false, s)

/-- The XO-Chip extension object (struct `XoChip`). -/
def xoExt (active : Bool) : Extension :=
  { isActive := active, handle := xoHandle active }

/-- The machine state produced by `CpuState::new` / `reset` before a program
or the font is loaded: all array fields zeroed, low resolution, `pc` at the
program start, plane mask 1.  (The font bytes that `reset` copies into
`memory[0..80]` are irrelevant to every claim below, which never reads that
region.) -/
def zeroState : CpuState :=
  { pc := START_ADDR, memory := fun _ => 0, screen := fun _ => false,
    currentWidth := SCREEN_WIDTH, currentHeight := SCREEN_HEIGHT,
    registers := fun _ => 0, iRegister := 0, sp := 0, stack := fun _ => 0,
    keys := fun _ => false, delayTimer := 0, soundTimer := 0,
    rplFlags := fun _ => 0, plane1 := fun _ => false, plane2 := fun _ => false,
    planeMask := 1 }

/-- Run a list of opcodes through the base table one after another, stopping
at the first failure (a sequence of `Chip8VM::execute` calls). -/
def execSeq (rng : Nat) (ops : List Nat) (s : CpuState) : Except StepErr CpuState :=
  match ops with
  | [] => .ok s
  | o :: rest =>
      match executeBase rng s o with
      | .error e => .error e
      | .ok s2 => execSeq rng rest s2

/-- The value of register `i` after a step, if the step succeeded. -/
def regAfter (r : Except StepErr CpuState) (i : Nat) : Except StepErr Nat :=
  Except.map (fun t => t.registers i) r

/-- An always-active extension that consumes every opcode without touching
the state (used to witness the dispatch claims). -/
def consumeExt : Extension :=
  { isActive := true, handle := fun s _ => .ok (true, s) }

/-- An always-active extension whose handler fails on every opcode: if
dispatch ever offered an opcode to it, the step would abort (used to witness
that later-registered extensions are not offered a consumed opcode). -/
def errorExt : Extension :=
  { isActive := true, handle := fun _ _ => .error (.fault "later handler ran") }

/-- Witness state for the ALU claims: register 1 holds 5, register 15 (the
flag register) holds 0. -/
def c2State : CpuState :=
  { zeroState with registers := setAt zeroState.registers 1 5 }

/-- Witness state for the Super-CHIP 16x16 draw claim: `I = 0x300`, and the
single sprite byte `memory[0x302] = 0x80` puts one set bit in sprite row 1,
column 0; all registers are 0. -/
def c3State : CpuState :=
  { zeroState with
    iRegister := 0x300
    memory := fun a => if a = 0x302 then 0x80 else 0 }

/-- Witness state for the amended C2: register 0 holds 200, register 1
holds 100. -/
def c2AddState : CpuState :=
  { zeroState with registers := setAt (setAt zeroState.registers 0 200) 1 100 }

/-- Witness state for C10: delay timer 5, sound timer 0. -/
def c10State : CpuState := { zeroState with delayTimer := 5 }


/-- Witness state for the block store/load bounds claim: index register at
`memory_size - 16 = 4080`. -/
def c7OkState : CpuState := { zeroState with iRegister := 4080 }

/-- Witness state for the block store/load bounds claim: index register at
`memory_size - 15 = 4081`. -/
def c7BadState : CpuState := { zeroState with iRegister := 4081 }


/-- Witness state for the BCD success case: `I = 0x300`, register 0
holds 123 (the spec scenario). -/
def c4OkState : CpuState :=
  { zeroState with
    iRegister := 0x300
    registers := setAt zeroState.registers 0 123 }

/-- Failing input for the BCD bounds claim: `I = 4094`, so the third BCD
write targets address 4096, one past the end of memory. -/
def c4BadState : CpuState :=
  { zeroState with
    iRegister := 4094
    registers := setAt zeroState.registers 0 123 }


/-- Bit `c` (most-significant first) of the sprite byte `b` is set:
`b & (0x80 >> c) != 0` for a byte value. -/
def spriteBit (b c : Nat) : Prop := b / 2 ^ (7 - c) % 2 = 1

/-- The screen index the base draw writes for sprite row `r`, column `c`:
`(xc + c) % w + ((yc + r) % h) * HI_RES_WIDTH`. -/
def targetIdx (xc yc w h r c : Nat) : Nat :=
  (xc + c) % w + ((yc + r) % h) * HI_RES_WIDTH

/-- Witness state for the draw-flag claim: `I = 0x300`, a one-row sprite
byte 0x80 at 0x300, registers 0 and 1 zero, the flag register already 1, and
an all-clear screen. -/
def c9Base : CpuState :=
  { zeroState with
    iRegister := 0x300
    memory := fun a => if a = 0x300 then 0x80 else 0
    registers := setAt zeroState.registers 15 1 }

/-! ## Opcode digit and array-update lemmas -/

lemma dig1_mkOp (a b c d : Nat) (hb : b < 16) (hc : c < 16) (hd : d < 16) :
    dig1 (mkOp a b c d) = a % 16 := by
  unfold dig1 mkOp; omega

lemma dig2_mkOp (a b c d : Nat) (hb : b < 16) (hc : c < 16) (hd : d < 16) :
    dig2 (mkOp a b c d) = b := by
  unfold dig2 mkOp; omega

lemma dig3_mkOp (a b c d : Nat) (hc : c < 16) (hd : d < 16) :
    dig3 (mkOp a b c d) = c := by
  unfold dig3 mkOp; omega

lemma dig4_mkOp (a b c d : Nat) (hd : d < 16) :
    dig4 (mkOp a b c d) = d := by
  unfold dig4 mkOp; omega

lemma executeBase_mkOp (rng : Nat) (s : CpuState) (a b c d : Nat)
    (ha : a < 16) (hb : b < 16) (hc : c < 16) (hd : d < 16) :
    executeBase rng s (mkOp a b c d) = execDecoded rng s (mkOp a b c d) a b c d := by
  rw [executeBase, dig1_mkOp a b c d hb hc hd, dig2_mkOp a b c d hb hc hd,
    dig3_mkOp a b c d hc hd, dig4_mkOp a b c d hd, Nat.mod_eq_of_lt ha]

lemma mkOp_mod_256 (a b c d : Nat) (hc : c < 16) (hd : d < 16) :
    mkOp a b c d % 256 = 16 * c + d := by
  unfold mkOp; omega

lemma mkOp_mod_4096 (a b c d : Nat) (hb : b < 16) (hc : c < 16) (hd : d < 16) :
    mkOp a b c d % 4096 = 256 * b + 16 * c + d := by
  unfold mkOp; omega

lemma setAt_self (f : Nat → Nat) (i v : Nat) : setAt f i v i = v := by
  simp [setAt]

lemma setAt_ne (f : Nat → Nat) (i v j : Nat) (h : j ≠ i) : setAt f i v j = f j := by
  simp [setAt, h]

lemma setAt_setAt_self (f : Nat → Nat) (i v w : Nat) :
    setAt (setAt f i v) i w = setAt f i w := by
  funext j; by_cases h : j = i <;> simp [setAt, h]

/-! ## Claim C1 -/

lemma runExtensions_append (s s1 : CpuState) (op : Nat) (l1 l2 : List Extension)
    (h : runExtensions s op l1 = .ok (false, s1)) :
    runExtensions s op (l1 ++ l2) = runExtensions s1 op l2 := by
  induction l1 generalizing s with
  | nil =>
      simp only [runExtensions] at h
      cases h
      rfl
  | cons e rest ih =>
      simp only [runExtensions, List.cons_append] at h ⊢
      by_cases he : e.isActive = true
      · simp only [he, if_pos] at h ⊢
        cases hh : e.handle s op with
        | error err => rw [hh] at h; cases h
        | ok p =>
            rw [hh] at h
            obtain ⟨b, s2⟩ := p
            cases b
            · exact ih s2 h
            · cases h
      · simp only [he, if_neg, if_false] at h ⊢
        exact ih s h

/-- Claim C1: for every opcode for which an active extension's
`handle_instruction` returns consumed (`Ok(true)`), `execute` returns
immediately after that handler: whatever extensions are registered after it
and whatever the base table would do, the step's result is exactly the
consuming handler's result, so no later-registered handler is offered the
opcode and the base table never executes it; the handlers before it are the
ones earlier in registration order, all of which declined. -/
theorem C1_consuming_extension_stops_dispatch
    (pre post : List Extension) (e : Extension) (s s1 s2 : CpuState) (op rng : Nat)
    (hpre : runExtensions s op pre = .ok (false, s1))
    (hact : e.isActive = true)
    (hcons : e.handle s1 op = .ok (true, s2)) :
    execute (pre ++ e :: post) rng s op = .ok s2 := by
  unfold execute
  rw [runExtensions_append s s1 op pre (e :: post) hpre]
  simp only [runExtensions, hact, if_pos, hcons]

/-- Witness for C1 at a concrete input: a consuming extension registered
before an always-failing one; opcode 0xFFFF, which the base table would
reject as unknown, is consumed with no error and no state change. -/
theorem C1_witness :
    execute [consumeExt, errorExt] 0 zeroState 0xFFFF = .ok zeroState :=
  C1_consuming_extension_stops_dispatch [] [errorExt] consumeExt
    zeroState zeroState zeroState 0xFFFF 0 rfl rfl rfl

/-! ## Claim C2 -/

/-- Counterexample to claim C2 as stated: executing the register-copy opcode
8XY0 (here 0x8010, copying register 1 into register 0) does not overwrite
register 15 with 1 — the flag register stays 0.  The claim asserts that every
opcode of the 8XY_ group unconditionally overwrites the flag register. -/
theorem C2_counterexample :
    regAfter (executeBase 0 c2State 0x8010) 15 = .ok 0 ∧
    regAfter (executeBase 0 c2State 0x8010) 15 ≠ (.ok 1) := by
  refine ⟨rfl, fun h => ?_⟩
  have h0 : regAfter (executeBase 0 c2State 0x8010) 15 = .ok 0 := rfl
  rw [h0] at h
  exact absurd (Except.ok.inj h) (by decide)

/-- Claim C2 as amended: for the register ALU group, each opcode writes the
destination register; 8XY4 unconditionally overwrites the flag register with
the carry bit, 8XY5 and 8XY7 with 1 exactly when no borrow occurred, and the
two shifts with the shifted-out bit; the copy, OR, AND and XOR opcodes leave
the flag register unchanged; add and subtract use wrapping 8-bit
arithmetic.  (Stated for a destination other than register 15 itself, where
the flag write would overwrite the result.) -/
theorem C2_amended_alu_semantics (rng : Nat) (s : CpuState) (x y : Nat)
    (hx : x < 16) (hy : y < 16) (hx15 : x ≠ 15) :
    (regAfter (executeBase rng s (mkOp 8 x y 0)) x = .ok (s.registers y) ∧
     regAfter (executeBase rng s (mkOp 8 x y 0)) 15 = .ok (s.registers 15)) ∧
    (regAfter (executeBase rng s (mkOp 8 x y 1)) x =
        .ok (Nat.lor (s.registers x) (s.registers y)) ∧
     regAfter (executeBase rng s (mkOp 8 x y 1)) 15 = .ok (s.registers 15)) ∧
    (regAfter (executeBase rng s (mkOp 8 x y 2)) x =
        .ok (Nat.land (s.registers x) (s.registers y)) ∧
     regAfter (executeBase rng s (mkOp 8 x y 2)) 15 = .ok (s.registers 15)) ∧
    (regAfter (executeBase rng s (mkOp 8 x y 3)) x =
        .ok (Nat.xor (s.registers x) (s.registers y)) ∧
     regAfter (executeBase rng s (mkOp 8 x y 3)) 15 = .ok (s.registers 15)) ∧
    (regAfter (executeBase rng s (mkOp 8 x y 4)) x =
        .ok ((s.registers x + s.registers y) % 256) ∧
     regAfter (executeBase rng s (mkOp 8 x y 4)) 15 =
        .ok (if 256 ≤ s.registers x + s.registers y then 1 else 0)) ∧
    (regAfter (executeBase rng s (mkOp 8 x y 5)) x =
        .ok ((s.registers x + 256 - s.registers y) % 256) ∧
     regAfter (executeBase rng s (mkOp 8 x y 5)) 15 =
        .ok (if s.registers x < s.registers y then 0 else 1)) ∧
    (regAfter (executeBase rng s (mkOp 8 x y 6)) x = .ok (s.registers x / 2) ∧
     regAfter (executeBase rng s (mkOp 8 x y 6)) 15 = .ok (s.registers x % 2)) ∧
    (regAfter (executeBase rng s (mkOp 8 x y 7)) x =
        .ok ((s.registers y + 256 - s.registers x) % 256) ∧
     regAfter (executeBase rng s (mkOp 8 x y 7)) 15 =
        .ok (if s.registers y < s.registers x then 0 else 1)) ∧
    (regAfter (executeBase rng s (mkOp 8 x y 0xE)) x =
        .ok (s.registers x * 2 % 256) ∧
     regAfter (executeBase rng s (mkOp 8 x y 0xE)) 15 =
        .ok (s.registers x / 128 % 2)) := by
  have h15 : (15 : Nat) ≠ x := Ne.symm hx15
  refine ⟨⟨?_, ?_⟩, ⟨?_, ?_⟩, ⟨?_, ?_⟩, ⟨?_, ?_⟩, ⟨?_, ?_⟩, ⟨?_, ?_⟩,
    ⟨?_, ?_⟩, ⟨?_, ?_⟩, ⟨?_, ?_⟩⟩ <;>
    rw [executeBase_mkOp rng s 8 x y _ (by omega) hx hy (by omega)] <;>
    simp [execDecoded, regAfter, Except.map, setAt, hx15, h15]

/-- Witness for the amended C2 at a concrete input: 200 + 100 wraps to 44
with carry flag 1, and the copy opcode leaves the flag register at its prior
value 0. -/
theorem C2_witness :
    regAfter (executeBase 0 c2AddState (mkOp 8 0 1 4)) 0 = .ok 44 ∧
    regAfter (executeBase 0 c2AddState (mkOp 8 0 1 4)) 15 = .ok 1 ∧
    regAfter (executeBase 0 c2AddState (mkOp 8 0 1 0)) 15 = .ok 0 := by
  have h := C2_amended_alu_semantics 0 c2AddState 0 1 (by decide) (by decide) (by decide)
  exact ⟨h.2.2.2.2.1.1.trans (by rfl), h.2.2.2.2.1.2.trans (by rfl),
    h.1.2.trans (by rfl)⟩

/-! ## Claim C10 -/

/-- Claim C10: each `tick_timers` call decrements the delay timer and the
sound timer by exactly 1 when positive, leaves a timer that is 0 unchanged
(saturation at zero, no wraparound), returns the post-decrement
(delay, sound) pair, and modifies no other machine-state field. -/
theorem C10_tick_timers (s : CpuState) :
    (0 < s.delayTimer → (tickTimers s).2.delayTimer = s.delayTimer - 1) ∧
    (s.delayTimer = 0 → (tickTimers s).2.delayTimer = 0) ∧
    (0 < s.soundTimer → (tickTimers s).2.soundTimer = s.soundTimer - 1) ∧
    (s.soundTimer = 0 → (tickTimers s).2.soundTimer = 0) ∧
    (tickTimers s).1 = ((tickTimers s).2.delayTimer, (tickTimers s).2.soundTimer) ∧
    (tickTimers s).2.pc = s.pc ∧ (tickTimers s).2.memory = s.memory ∧
    (tickTimers s).2.screen = s.screen ∧
    (tickTimers s).2.currentWidth = s.currentWidth ∧
    (tickTimers s).2.currentHeight = s.currentHeight ∧
    (tickTimers s).2.registers = s.registers ∧
    (tickTimers s).2.iRegister = s.iRegister ∧
    (tickTimers s).2.sp = s.sp ∧ (tickTimers s).2.stack = s.stack ∧
    (tickTimers s).2.keys = s.keys ∧
    (tickTimers s).2.rplFlags = s.rplFlags ∧
    (tickTimers s).2.plane1 = s.plane1 ∧
    (tickTimers s).2.plane2 = s.plane2 ∧
    (tickTimers s).2.planeMask = s.planeMask := by
  unfold tickTimers
  refine ⟨?_, ?_, ?_, ?_, rfl, rfl, rfl, rfl, rfl, rfl, rfl, rfl, rfl, rfl,
    rfl, rfl, rfl, rfl, rfl⟩ <;> intro h <;> simp [h]

/-- Witness for C10 at a concrete input: delay 5 becomes 4, sound stays 0,
the returned pair is the post-decrement pair, and the registers are
untouched. -/
theorem C10_witness :
    (tickTimers c10State).2.delayTimer = 4 ∧
    (tickTimers c10State).2.soundTimer = 0 ∧
    (tickTimers c10State).1 =
      ((tickTimers c10State).2.delayTimer, (tickTimers c10State).2.soundTimer) ∧
    (tickTimers c10State).2.registers = c10State.registers := by
  have h := C10_tick_timers c10State
  exact ⟨(h.1 (by decide)).trans (by rfl), h.2.2.2.1 (by rfl),
    h.2.2.2.2.1, h.2.2.2.2.2.2.2.2.2.2.1⟩

/-! ## Claim C5 -/

/-- The CALL arm of the base table in closed form: once the leading digit is
2, the step is a push followed by the jump. -/
lemma execDecoded_call (rng : Nat) (s : CpuState) (op d2 d3 d4 : Nat) :
    execDecoded rng s op 2 d2 d3 d4 =
      match pushToStack s s.pc with
      | .error e => .error e
      | .ok s2 => .ok { s2 with pc := op % 4096 } := rfl

/-- The RET arm of the base table in closed form. -/
lemma execDecoded_ret (rng : Nat) (s : CpuState) (op : Nat) :
    execDecoded rng s op 0 0 14 14 =
      match popFromStack s with
      | .error e => .error e
      | .ok (v, s2) => .ok { s2 with pc := v } := rfl

lemma pushToStack_ok (s : CpuState) (v : Nat) (s2 : CpuState)
    (h : pushToStack s v = .ok s2) :
    s2 = { s with stack := setAt s.stack s.sp v, sp := s.sp + 1 } ∧ s.sp < 16 := by
  unfold pushToStack at h
  split at h
  · exact absurd h (by simp)
  · rename_i hle
    exact ⟨(Except.ok.inj h).symm, by unfold STACK_SIZE at hle; omega⟩

lemma popFromStack_ok (s : CpuState) (v : Nat) (s2 : CpuState)
    (h : popFromStack s = .ok (v, s2)) :
    v = s.stack (s.sp - 1) ∧ s2 = { s with sp := s.sp - 1 } ∧ 0 < s.sp := by
  unfold popFromStack at h
  split at h
  · exact absurd h (by simp)
  · rename_i hne
    obtain ⟨ha, hb⟩ := Prod.mk.inj (Except.ok.inj h)
    exact ⟨ha.symm, hb.symm, by omega⟩

/-- Claim C5: a Call opcode (2NNN) succeeds and pushes the post-fetch program
counter exactly when the stack pointer is below 16 and fails with a
stack-overflow error when 16 entries are in use; a Return opcode (00EE)
succeeds and pops exactly when the stack pointer is above 0 and fails with a
stack-underflow error on an empty stack; a fetched Call pushes the
post-fetch program counter (the fetch address plus 2); a successful Call or
Return step keeps the stack pointer at most 16; and from an empty stack, 16
consecutive Calls succeed, a 17th fails with overflow, 16 subsequent Returns
succeed, and one further Return fails with underflow. -/
theorem C5_stack_discipline :
    (∀ (rng : Nat) (s : CpuState) (nnn : Nat), nnn < 4096 → s.sp < 16 →
      executeBase rng s (8192 + nnn) =
        .ok { s with stack := setAt s.stack s.sp s.pc, sp := s.sp + 1, pc := nnn }) ∧
    (∀ (rng : Nat) (s : CpuState) (nnn : Nat), nnn < 4096 → 16 ≤ s.sp →
      executeBase rng s (8192 + nnn) = .error (.fault "Stack overflow")) ∧
    (∀ (rng : Nat) (s : CpuState), 0 < s.sp →
      executeBase rng s 0x00EE =
        .ok { s with sp := s.sp - 1, pc := s.stack (s.sp - 1) }) ∧
    (∀ (rng : Nat) (s : CpuState), s.sp = 0 →
      executeBase rng s 0x00EE = .error (.fault "Stack underflow")) ∧
    (∀ (rng : Nat) (s : CpuState) (op : Nat) (s' : CpuState),
      (dig1 op = 2 ∨ op = 0x00EE) → s.sp ≤ 16 →
      executeBase rng s op = .ok s' → s'.sp ≤ 16) ∧
    (∀ (rng : Nat) (s : CpuState) (b c : Nat),
      s.pc + 1 < 4096 → s.sp < 16 →
      s.memory s.pc = 32 + b → b < 16 → s.memory (s.pc + 1) = c → c < 256 →
      tick [] rng s =
        .ok { s with stack := setAt s.stack s.sp (s.pc + 2), sp := s.sp + 1,
                     pc := 256 * b + c }) ∧
    (execSeq 0 (List.replicate 16 0x2200) zeroState).isOk = true ∧
    execSeq 0 (List.replicate 17 0x2200) zeroState = .error (.fault "Stack overflow") ∧
    (execSeq 0 (List.replicate 16 0x2200 ++ List.replicate 16 0x00EE)
      zeroState).isOk = true ∧
    execSeq 0 (List.replicate 16 0x2200 ++ List.replicate 17 0x00EE) zeroState =
      .error (.fault "Stack underflow") := by
  refine ⟨?_, ?_, ?_, ?_, ?_, ?_, by rfl, by rfl, by rfl, by rfl⟩
  · intro rng s nnn hn hsp
    have hd1 : dig1 (8192 + nnn) = 2 := by unfold dig1; omega
    rw [executeBase, hd1, execDecoded_call]
    unfold pushToStack
    rw [if_neg (show ¬ STACK_SIZE ≤ s.sp by unfold STACK_SIZE; omega)]
    have hmod : (8192 + nnn) % 4096 = nnn := by omega
    simp [hmod]
  · intro rng s nnn hn hsp
    have hd1 : dig1 (8192 + nnn) = 2 := by unfold dig1; omega
    rw [executeBase, hd1, execDecoded_call]
    unfold pushToStack
    rw [if_pos (show STACK_SIZE ≤ s.sp by unfold STACK_SIZE; omega)]
  · intro rng s hsp
    rw [show executeBase rng s 238 = execDecoded rng s 238 0 0 14 14 from rfl,
      execDecoded_ret]
    unfold popFromStack
    rw [if_neg (show ¬ s.sp = 0 by omega)]
  · intro rng s hsp
    rw [show executeBase rng s 238 = execDecoded rng s 238 0 0 14 14 from rfl,
      execDecoded_ret]
    unfold popFromStack
    rw [if_pos hsp]
  · intro rng s op s' hop hsp h
    rcases hop with hop | hop
    · rw [executeBase, hop, execDecoded_call] at h
      split at h
      · exact absurd h (by simp)
      · rename_i s2 heq
        obtain ⟨rfl, hlt⟩ := pushToStack_ok s s.pc s2 heq
        replace h := Except.ok.inj h
        subst h
        simp
        omega
    · subst hop
      rw [show executeBase rng s 238 = execDecoded rng s 238 0 0 14 14 from rfl,
        execDecoded_ret] at h
      split at h
      · exact absurd h (by simp)
      · rename_i v s2 heq
        obtain ⟨hv, hs2, hlt⟩ := popFromStack_ok s v s2 heq
        subst hs2
        replace h := Except.ok.inj h
        subst h
        simp
        omega
  · intro rng s b c hpc hsp hb hb16 hc hc256
    unfold tick fetch memRead
    rw [if_pos (show s.pc < RAM_SIZE by unfold RAM_SIZE; omega),
      if_pos (show s.pc + 1 < RAM_SIZE by unfold RAM_SIZE; omega), hb, hc]
    show execute [] rng _ ((32 + b) * 256 + c) = _
    have hex : ∀ t o, execute [] rng t o = executeBase rng t o := fun t o => rfl
    rw [hex]
    have hd1 : dig1 ((32 + b) * 256 + c) = 2 := by unfold dig1; omega
    rw [executeBase, hd1, execDecoded_call]
    unfold pushToStack
    rw [if_neg (show ¬ STACK_SIZE ≤ s.sp by unfold STACK_SIZE; omega)]
    have hmod : ((32 + b) * 256 + c) % 4096 = 256 * b + c := by omega
    simp [hmod]

/-- Witness for C5 at a concrete input: from the freshly created machine
state (empty stack), the Call opcode 0x2200 pushes the post-fetch program
counter and bumps the stack pointer to 1. -/
theorem C5_witness :
    executeBase 0 zeroState 0x2200 =
      .ok { zeroState with
            stack := setAt zeroState.stack zeroState.sp zeroState.pc
            sp := zeroState.sp + 1
            pc := 0x200 } :=
  C5_stack_discipline.1 0 zeroState 0x200 (by decide) (by decide)

/-! ## Claims C7 and C8 -/

lemma execDecoded_store (rng : Nat) (s : CpuState) (op x : Nat) :
    execDecoded rng s op 15 x 5 5 =
      (if RAM_SIZE ≤ s.iRegister + x then .error (.fault "Memory store out of bounds")
       else
        match storeRegs s.memory s.registers s.iRegister x with
        | .error e => .error e
        | .ok m2 => .ok { s with memory := m2 }) := rfl

lemma execDecoded_load (rng : Nat) (s : CpuState) (op x : Nat) :
    execDecoded rng s op 15 x 6 5 =
      (if RAM_SIZE ≤ s.iRegister + x then .error (.fault "Memory load out of bounds")
       else
        match loadRegs s.memory s.registers s.iRegister x with
        | .error e => .error e
        | .ok r2 => .ok { s with registers := r2 }) := rfl

lemma storeRegs_ok (m regs : Nat → Nat) (i k : Nat) (h : i + k < RAM_SIZE) :
    storeRegs m regs i k =
      .ok (fun a => if i ≤ a ∧ a ≤ i + k then regs (a - i) else m a) := by
  induction k with
  | zero =>
      unfold storeRegs memWrite
      rw [if_pos (by omega)]
      congr 1
      funext a
      by_cases ha : a = i
      · subst ha; simp [setAt]
      · have hno : ¬(i ≤ a ∧ a ≤ i) := by omega
        simp [setAt, ha, hno]
  | succ k ih =>
      unfold storeRegs
      rw [ih (by omega)]
      show memWrite _ (i + (k + 1)) (regs (k + 1)) = _
      unfold memWrite
      rw [if_pos (by omega)]
      congr 1
      funext a
      by_cases ha : a = i + (k + 1)
      · subst ha
        have h1 : i ≤ i + (k + 1) ∧ i + (k + 1) ≤ i + (k + 1) := by omega
        simp [setAt, h1]
      · by_cases hb : i ≤ a ∧ a ≤ i + k
        · have h2 : i ≤ a ∧ a ≤ i + (k + 1) := ⟨hb.1, by omega⟩
          simp [setAt, ha, hb, h2]
        · have h2 : ¬(i ≤ a ∧ a ≤ i + (k + 1)) := by omega
          simp [setAt, ha, hb, h2]

lemma loadRegs_ok (m regs : Nat → Nat) (i k : Nat) (h : i + k < RAM_SIZE) :
    loadRegs m regs i k =
      .ok (fun j => if j ≤ k then m (i + j) else regs j) := by
  induction k with
  | zero =>
      unfold loadRegs memRead
      rw [if_pos (by omega)]
      show Except.ok (setAt regs 0 (m i)) = _
      congr 1
      funext j
      by_cases hj : j = 0
      · subst hj; simp [setAt]
      · simp [setAt, hj, show ¬ j ≤ 0 by omega]
  | succ k ih =>
      unfold loadRegs
      rw [ih (by omega)]
      show (match memRead m (i + (k + 1)) with
            | Except.error e => Except.error e
            | Except.ok v =>
                Except.ok (setAt (fun j => if j ≤ k then m (i + j) else regs j)
                  (k + 1) v)) = _
      unfold memRead
      rw [if_pos (by omega)]
      show Except.ok (setAt (fun j => if j ≤ k then m (i + j) else regs j)
        (k + 1) (m (i + (k + 1)))) = _
      congr 1
      funext j
      by_cases hj : j = k + 1
      · subst hj; simp [setAt]
      · by_cases hb : j ≤ k
        · simp [setAt, hj, hb, show j ≤ k + 1 by omega]
        · simp [setAt, hj, hb, show ¬ j ≤ k + 1 by omega]


/-- Claim C7: the base block store (FX55) and block load (FX65) fail with an
out-of-bounds fault exactly when `I + X >= 4096` and succeed otherwise,
transferring registers `0..=X` to or from `I..=I+X`; in particular with
`X = 15` they succeed at `I = 4080` and fail at `I = 4081`. -/
theorem C7_block_store_load_bounds :
    (∀ (rng : Nat) (s : CpuState) (x : Nat), x < 16 → 4096 ≤ s.iRegister + x →
      executeBase rng s (mkOp 15 x 5 5) = .error (.fault "Memory store out of bounds") ∧
      executeBase rng s (mkOp 15 x 6 5) = .error (.fault "Memory load out of bounds")) ∧
    (∀ (rng : Nat) (s : CpuState) (x : Nat), x < 16 → s.iRegister + x < 4096 →
      executeBase rng s (mkOp 15 x 5 5) =
        .ok { s with memory := fun a =>
          if s.iRegister ≤ a ∧ a ≤ s.iRegister + x then s.registers (a - s.iRegister)
          else s.memory a } ∧
      executeBase rng s (mkOp 15 x 6 5) =
        .ok { s with registers := fun j =>
          if j ≤ x then s.memory (s.iRegister + j) else s.registers j }) ∧
    (executeBase 0 c7OkState (mkOp 15 15 5 5)).isOk = true ∧
    (executeBase 0 c7OkState (mkOp 15 15 6 5)).isOk = true ∧
    executeBase 0 c7BadState (mkOp 15 15 5 5) =
      .error (.fault "Memory store out of bounds") ∧
    executeBase 0 c7BadState (mkOp 15 15 6 5) =
      .error (.fault "Memory load out of bounds") := by
  refine ⟨?_, ?_, by rfl, by rfl, by rfl, by rfl⟩
  · intro rng s x hx hge
    constructor
    · rw [executeBase_mkOp rng s 15 x 5 5 (by omega) hx (by omega) (by omega),
        execDecoded_store]
      rw [if_pos (show RAM_SIZE ≤ s.iRegister + x by unfold RAM_SIZE; omega)]
    · rw [executeBase_mkOp rng s 15 x 6 5 (by omega) hx (by omega) (by omega),
        execDecoded_load]
      rw [if_pos (show RAM_SIZE ≤ s.iRegister + x by unfold RAM_SIZE; omega)]
  · intro rng s x hx hlt
    constructor
    · rw [executeBase_mkOp rng s 15 x 5 5 (by omega) hx (by omega) (by omega),
        execDecoded_store]
      rw [if_neg (show ¬ RAM_SIZE ≤ s.iRegister + x by unfold RAM_SIZE; omega)]
      rw [storeRegs_ok _ _ _ _ (show s.iRegister + x < RAM_SIZE by unfold RAM_SIZE; omega)]
    · rw [executeBase_mkOp rng s 15 x 6 5 (by omega) hx (by omega) (by omega),
        execDecoded_load]
      rw [if_neg (show ¬ RAM_SIZE ≤ s.iRegister + x by unfold RAM_SIZE; omega)]
      rw [loadRegs_ok _ _ _ _ (show s.iRegister + x < RAM_SIZE by unfold RAM_SIZE; omega)]

/-- Claim C8: for every `X < 16` and index register with `I + X < 4096`,
block store followed by block load with the same `X` and `I` restores all 16
general-purpose registers; the store modifies no register and neither opcode
modifies the index register. -/
theorem C8_store_load_roundtrip (rng rng2 : Nat) (s : CpuState) (x : Nat)
    (hx : x < 16) (hi : s.iRegister + x < 4096) :
    ∃ s1 s2 : CpuState,
      executeBase rng s (mkOp 15 x 5 5) = .ok s1 ∧
      executeBase rng2 s1 (mkOp 15 x 6 5) = .ok s2 ∧
      s1.registers = s.registers ∧
      s1.iRegister = s.iRegister ∧
      s2.iRegister = s.iRegister ∧
      (∀ j, j < 16 → s2.registers j = s.registers j) := by
  have hstore :
      executeBase rng s (mkOp 15 x 5 5) =
        .ok { s with memory := fun a =>
          if s.iRegister ≤ a ∧ a ≤ s.iRegister + x then s.registers (a - s.iRegister)
          else s.memory a } := by
    rw [executeBase_mkOp rng s 15 x 5 5 (by omega) hx (by omega) (by omega),
      execDecoded_store]
    rw [if_neg (show ¬ RAM_SIZE ≤ s.iRegister + x by unfold RAM_SIZE; omega)]
    rw [storeRegs_ok _ _ _ _ (show s.iRegister + x < RAM_SIZE by unfold RAM_SIZE; omega)]
  have hload :
      executeBase rng2
        { s with memory := fun a =>
            if s.iRegister ≤ a ∧ a ≤ s.iRegister + x then s.registers (a - s.iRegister)
            else s.memory a } (mkOp 15 x 6 5) =
        .ok { s with
          memory := fun a =>
            if s.iRegister ≤ a ∧ a ≤ s.iRegister + x then s.registers (a - s.iRegister)
            else s.memory a
          registers := fun j =>
            if j ≤ x then
              (fun a =>
                if s.iRegister ≤ a ∧ a ≤ s.iRegister + x then s.registers (a - s.iRegister)
                else s.memory a) (s.iRegister + j)
            else s.registers j } := by
    rw [executeBase_mkOp rng2 _ 15 x 6 5 (by omega) hx (by omega) (by omega),
      execDecoded_load]
    rw [if_neg (show ¬ RAM_SIZE ≤ _ by unfold RAM_SIZE; simp only []; omega)]
    rw [loadRegs_ok _ _ _ _ (show _ + x < RAM_SIZE by unfold RAM_SIZE; simp only []; omega)]
  refine ⟨_, _, hstore, hload, rfl, rfl, rfl, ?_⟩
  intro j hj
  show (if j ≤ x then
          (fun a =>
            if s.iRegister ≤ a ∧ a ≤ s.iRegister + x then s.registers (a - s.iRegister)
            else s.memory a) (s.iRegister + j)
        else s.registers j) = s.registers j
  by_cases hb : j ≤ x
  · have h1 : s.iRegister ≤ s.iRegister + j ∧ s.iRegister + j ≤ s.iRegister + x := by
      omega
    simp [hb, h1, Nat.add_sub_cancel_left]
  · simp [hb]

/-- Witness for C7 at concrete inputs: with `X = 15`, the store faults at
`I = 4081` and succeeds at `I = 4080`. -/
theorem C7_witness :
    executeBase 0 c7BadState (mkOp 15 15 5 5) =
      .error (.fault "Memory store out of bounds") ∧
    executeBase 0 c7OkState (mkOp 15 15 5 5) =
      .ok { c7OkState with memory := fun a =>
        if c7OkState.iRegister ≤ a ∧ a ≤ c7OkState.iRegister + 15 then
          c7OkState.registers (a - c7OkState.iRegister)
        else c7OkState.memory a } :=
  ⟨(C7_block_store_load_bounds.1 0 c7BadState 15 (by decide) (by decide)).1,
   (C7_block_store_load_bounds.2.1 0 c7OkState 15 (by decide) (by decide)).1⟩

/-- Witness for C8 at a concrete input: the round trip through memory at
`I = 0` with `X = 2` on a state whose registers 0 and 1 hold 200 and 100. -/
theorem C8_witness :
    ∃ s1 s2 : CpuState,
      executeBase 0 c2AddState (mkOp 15 2 5 5) = .ok s1 ∧
      executeBase 0 s1 (mkOp 15 2 6 5) = .ok s2 ∧
      s1.registers = c2AddState.registers ∧
      s1.iRegister = c2AddState.iRegister ∧
      s2.iRegister = c2AddState.iRegister ∧
      (∀ j, j < 16 → s2.registers j = c2AddState.registers j) :=
  C8_store_load_roundtrip 0 0 c2AddState 2 (by decide) (by decide)

/-! ## Claims C3, C4, C6 -/

/-- Claim C4, evaluated at the failing input: the BCD opcode FX33 with
`I = 4094` (so `I + 2 = 4096`) does not abort with a returned fault — the
step ends in `oob`, the model's image of an unchecked Rust index
out-of-bounds panic, and no fault message whatsoever is returned; with
`I = 0x300` and register 0 holding 123 the step succeeds and writes the
digits 1, 2, 3 to `memory[0x300..0x302]`. -/
theorem C4_bcd_unchecked_write :
    executeBase 0 c4BadState 0xF033 = .error .oob ∧
    (∀ msg : String, executeBase 0 c4BadState 0xF033 ≠ .error (.fault msg)) ∧
    Except.map (fun t => (t.memory 0x300, t.memory 0x301, t.memory 0x302))
      (executeBase 0 c4OkState 0xF033) = .ok (1, 2, 3) := by
  refine ⟨rfl, ?_, rfl⟩
  intro msg h
  rw [show executeBase 0 c4BadState 0xF033 = .error .oob from rfl] at h
  exact absurd (Except.error.inj h) (by simp)

/-- Claim C3, evaluated at the failing input: with the Super-CHIP extension
active, opcode 0xD010 (a 16x16 draw with `VX = VY = 0`) on a sprite whose
only set bit is row 1, column 0 toggles the screen pixel at `x = 0, y = 0`
(index 0) — because src/superchip.rs line 49 computes the vertical offset
from the column counter — whereas the claim requires the pixel at
`x = 0, y = 1` (index 128).  The collision flag is 0 as expected. -/
theorem C3_super_draw16_row_bug :
    Except.map (fun t => (t.screen 0, t.screen 128, t.registers 15))
      (execute [superExt true] 0 c3State 0xD010) = .ok (true, false, 0) := rfl

/-- Claim C6, evaluated on the code: with the XO-Chip extension active, the
opcode 0x00FC is declined by `handle_instruction` (its third nibble is 0xF,
so the `(0, 0, 0xC, n)` scroll arm never sees it and the `nn == 0xFC` test
inside that arm is dead), and the whole step then faults in the base table
as an unknown opcode; every opcode 0x00CN is consumed as scroll-down-by-N
(shown at N = 3).  The claim instead requires 0x00FC to be consumed as the
legacy 4-pixel left scroll. -/
theorem C6_xo_scroll_dispatch :
    (∀ s : CpuState, xoHandle true s 0x00FC = .ok (false, s)) ∧
    execute [xoExt true] 0 zeroState 0x00FC =
      .error (.fault "Unimplemented or unknown opcode") ∧
    xoHandle true zeroState 0x00C3 = .ok (true, xoScrollDown zeroState 3) := by
  exact ⟨fun s => rfl, rfl, rfl⟩

/-! ## Claim C9 -/

lemma drawCols_screen_frame (sc : Nat → Bool) (vf pixels xc yc r w h : Nat)
    (c : Nat) (j : Nat)
    (hj : ∀ c', c' < c → spriteBit pixels c' → j ≠ targetIdx xc yc w h r c') :
    (drawCols sc vf pixels xc yc r w h c).1 j = sc j := by
  induction c with
  | zero => rfl
  | succ c ih =>
      have ih2 := ih (fun c' hc' hb => hj c' (by omega) hb)
      by_cases hbit : pixels / 2 ^ (7 - c) % 2 = 1
      · have hne : j ≠ (xc + c) % w + ((yc + r) % h) * HI_RES_WIDTH := by
          have := hj c (by omega) hbit
          simpa [targetIdx] using this
        simp only [drawCols, hbit, if_true, if_pos]
        simpa [setPix, hne] using ih2
      · simpa only [drawCols, hbit, if_false, if_neg] using ih2

lemma drawCols_flag_cases (sc : Nat → Bool) (vf pixels xc yc r w h : Nat) (c : Nat) :
    (drawCols sc vf pixels xc yc r w h c).2 = vf ∨
    (drawCols sc vf pixels xc yc r w h c).2 = 1 := by
  induction c with
  | zero => exact Or.inl rfl
  | succ c ih =>
      by_cases hbit : pixels / 2 ^ (7 - c) % 2 = 1
      · simp only [drawCols, hbit, if_true, if_pos]
        by_cases hsc : (drawCols sc vf pixels xc yc r w h c).1
            ((xc + c) % w + ((yc + r) % h) * HI_RES_WIDTH) = true
        · simp [hsc]
        · simpa [hsc] using ih
      · simpa only [drawCols, hbit, if_false, if_neg] using ih

lemma drawCols_flag_iff (sc : Nat → Bool) (vf pixels xc yc r w h : Nat) (c : Nat)
    (hinj : ∀ c1 c2, c1 < 8 → c2 < 8 →
      targetIdx xc yc w h r c1 = targetIdx xc yc w h r c2 → c1 = c2)
    (hc8 : c ≤ 8) :
    ((drawCols sc vf pixels xc yc r w h c).2 = 1 ↔
      vf = 1 ∨ ∃ c', c' < c ∧ spriteBit pixels c' ∧
        sc (targetIdx xc yc w h r c') = true) := by
  induction c with
  | zero =>
      simp only [drawCols]
      constructor
      · intro hv; exact Or.inl hv
      · rintro (hv | ⟨c', hc', _, _⟩)
        · exact hv
        · omega
  | succ c ih =>
      have ih2 := ih (by omega)
      by_cases hbit : pixels / 2 ^ (7 - c) % 2 = 1
      · have hfrm : (drawCols sc vf pixels xc yc r w h c).1
            ((xc + c) % w + ((yc + r) % h) * HI_RES_WIDTH) =
            sc (targetIdx xc yc w h r c) := by
          have := drawCols_screen_frame sc vf pixels xc yc r w h c
            (targetIdx xc yc w h r c)
            (fun c' hc' hb heq => by
              have := hinj c c' (by omega) (by omega) heq
              omega)
          simpa [targetIdx] using this
        simp only [drawCols, hbit, if_true, if_pos, hfrm]
        by_cases hsc : sc (targetIdx xc yc w h r c) = true
        · rw [if_pos hsc]
          constructor
          · intro _
            exact Or.inr ⟨c, by omega, hbit, hsc⟩
          · intro _
            rfl
        · rw [if_neg hsc, ih2]
          constructor
          · rintro (hv | ⟨c', hc', hb, hs⟩)
            · exact Or.inl hv
            · exact Or.inr ⟨c', by omega, hb, hs⟩
          · rintro (hv | ⟨c', hc', hb, hs⟩)
            · exact Or.inl hv
            · rcases Nat.lt_succ_iff_lt_or_eq.mp hc' with h' | h'
              · exact Or.inr ⟨c', h', hb, hs⟩
              · subst h'
                exact absurd hs hsc
      · simp only [drawCols, hbit, if_false, if_neg, ih2]
        constructor
        · rintro (hv | ⟨c', hc', hb, hs⟩)
          · exact Or.inl hv
          · exact Or.inr ⟨c', by omega, hb, hs⟩
        · rintro (hv | ⟨c', hc', hb, hs⟩)
          · exact Or.inl hv
          · rcases Nat.lt_succ_iff_lt_or_eq.mp hc' with h' | h'
            · exact Or.inr ⟨c', h', hb, hs⟩
            · subst h'
              exact absurd hb hbit

lemma drawRows_succ_ok (mem : Nat → Nat) (sc : Nat → Bool)
    (vf i xc yc w h k : Nat) (p : (Nat → Bool) × Nat)
    (hdr : drawRows mem sc vf i xc yc w h (k + 1) = .ok p) :
    ∃ q, drawRows mem sc vf i xc yc w h k = .ok q ∧ i + k < RAM_SIZE ∧
      p = drawCols q.1 q.2 (mem (i + k)) xc yc k w h 8 := by
  simp only [drawRows] at hdr
  cases hq : drawRows mem sc vf i xc yc w h k with
  | error e => rw [hq] at hdr; exact absurd hdr (by simp)
  | ok q =>
      rw [hq] at hdr
      replace hdr :
          (if i + k < RAM_SIZE then
            Except.ok (drawCols q.1 q.2 (mem (i + k)) xc yc k w h 8)
          else
            Except.error
              (StepErr.fault "Memory access out of bounds for sprite draw")) =
            Except.ok p := hdr
      split at hdr
      · exact ⟨q, rfl, by assumption, (Except.ok.inj hdr).symm⟩
      · exact absurd hdr (by simp)

lemma drawRows_screen_frame (mem : Nat → Nat) (sc : Nat → Bool)
    (vf i xc yc w h k : Nat) (p : (Nat → Bool) × Nat)
    (hdr : drawRows mem sc vf i xc yc w h k = .ok p) (j : Nat)
    (hj : ∀ r c, r < k → c < 8 → spriteBit (mem (i + r)) c →
      j ≠ targetIdx xc yc w h r c) :
    p.1 j = sc j := by
  induction k generalizing p with
  | zero =>
      replace hdr := Except.ok.inj hdr
      subst hdr
      rfl
  | succ k ih =>
      obtain ⟨q, hq, _, rfl⟩ := drawRows_succ_ok mem sc vf i xc yc w h k p hdr
      rw [drawCols_screen_frame q.1 q.2 (mem (i + k)) xc yc k w h 8 j
        (fun c' hc' hb => hj k c' (by omega) hc' hb)]
      exact ih q hq (fun r c hr hc hb => hj r c (by omega) hc hb)

lemma drawRows_flag_cases (mem : Nat → Nat) (sc : Nat → Bool)
    (vf i xc yc w h k : Nat) (p : (Nat → Bool) × Nat)
    (hdr : drawRows mem sc vf i xc yc w h k = .ok p) :
    p.2 = vf ∨ p.2 = 1 := by
  induction k generalizing p with
  | zero =>
      replace hdr := Except.ok.inj hdr
      subst hdr
      exact Or.inl rfl
  | succ k ih =>
      obtain ⟨q, hq, _, rfl⟩ := drawRows_succ_ok mem sc vf i xc yc w h k p hdr
      rcases drawCols_flag_cases q.1 q.2 (mem (i + k)) xc yc k w h 8 with hc | hc
      · rw [hc]
        exact ih q hq
      · exact Or.inr hc

lemma drawRows_flag_iff (mem : Nat → Nat) (sc : Nat → Bool)
    (vf i xc yc w h : Nat)
    (Hinj : ∀ r1 c1 r2 c2, r1 < 16 → c1 < 8 → r2 < 16 → c2 < 8 →
      targetIdx xc yc w h r1 c1 = targetIdx xc yc w h r2 c2 → r1 = r2 ∧ c1 = c2)
    (k : Nat) (hk : k ≤ 16) (p : (Nat → Bool) × Nat)
    (hdr : drawRows mem sc vf i xc yc w h k = .ok p) :
    (p.2 = 1 ↔ vf = 1 ∨ ∃ r, r < k ∧ ∃ c, c < 8 ∧
      spriteBit (mem (i + r)) c ∧ sc (targetIdx xc yc w h r c) = true) := by
  induction k generalizing p with
  | zero =>
      replace hdr := Except.ok.inj hdr
      subst hdr
      constructor
      · intro hv; exact Or.inl hv
      · rintro (hv | ⟨r, hr, _⟩)
        · exact hv
        · omega
  | succ k ih =>
      obtain ⟨q, hq, _, rfl⟩ := drawRows_succ_ok mem sc vf i xc yc w h k p hdr
      have hrowinj : ∀ c1 c2, c1 < 8 → c2 < 8 →
          targetIdx xc yc w h k c1 = targetIdx xc yc w h k c2 → c1 = c2 :=
        fun c1 c2 hc1 hc2 heq =>
          (Hinj k c1 k c2 (by omega) hc1 (by omega) hc2 heq).2
      have hcols := drawCols_flag_iff q.1 q.2 (mem (i + k)) xc yc k w h 8
        hrowinj (by omega)
      have hcong : ∀ c, c < 8 → q.1 (targetIdx xc yc w h k c) =
          sc (targetIdx xc yc w h k c) := by
        intro c hc
        refine drawRows_screen_frame mem sc vf i xc yc w h k q hq _ ?_
        intro r c' hr hc' hb heq
        have := (Hinj k c r c' (by omega) hc (by omega) hc' heq).1
        omega
      rw [hcols, ih (by omega) q hq]
      constructor
      · rintro ((hv | ⟨r, hr, c, hc, hb, hs⟩) | ⟨c, hc, hb, hs⟩)
        · exact Or.inl hv
        · exact Or.inr ⟨r, by omega, c, hc, hb, hs⟩
        · rw [hcong c hc] at hs
          exact Or.inr ⟨k, by omega, c, hc, hb, hs⟩
      · rintro (hv | ⟨r, hr, c, hc, hb, hs⟩)
        · exact Or.inl (Or.inl hv)
        · rcases Nat.lt_succ_iff_lt_or_eq.mp hr with h' | h'
          · exact Or.inl (Or.inr ⟨r, h', c, hc, hb, hs⟩)
          · subst h'
            exact Or.inr ⟨c, hc, hb, by rw [hcong c hc]; exact hs⟩

lemma targetIdx_inj (xc yc w h : Nat)
    (hw : w = 64 ∨ w = 128) (hh : h = 32 ∨ h = 64)
    (r1 c1 r2 c2 : Nat) (hr1 : r1 < 16) (hc1 : c1 < 8) (hr2 : r2 < 16)
    (hc2 : c2 < 8)
    (heq : targetIdx xc yc w h r1 c1 = targetIdx xc yc w h r2 c2) :
    r1 = r2 ∧ c1 = c2 := by
  unfold targetIdx HI_RES_WIDTH at heq
  rcases hw with hw | hw <;> rcases hh with hh | hh <;> subst hw <;> subst hh <;>
    constructor <;> omega

lemma execDecoded_draw (rng : Nat) (s : CpuState) (op x y n : Nat) :
    execDecoded rng s op 13 x y n =
      (match drawRows s.memory s.screen 0 s.iRegister
          (setAt s.registers 15 0 x) (setAt s.registers 15 0 y)
          s.currentWidth s.currentHeight n with
      | .error e => .error e
      | .ok p =>
          .ok { s with
                screen := p.1
                registers := setAt (setAt s.registers 15 0) 15 p.2 }) := rfl

/-- Claim C9: a successful base sprite draw (DXYN) overwrites the flag
register regardless of its prior value — the step's entire result is
unchanged if register 15 is first set to an arbitrary value — and afterwards
register 15 is 1 exactly when some drawn pixel (a set sprite bit) hit a
screen pixel that was set before the draw (which, the target pixels of one
draw being pairwise distinct at the legal resolutions, is exactly a
set-to-clear transition during the draw), and 0 otherwise; in particular a
collision-free draw clears a previously set flag register. -/
theorem C9_draw_overwrites_flag (rng : Nat) (s : CpuState) (x y n v : Nat)
    (hx : x < 16) (hy : y < 16) (hn : n < 16)
    (hw : s.currentWidth = 64 ∨ s.currentWidth = 128)
    (hh : s.currentHeight = 32 ∨ s.currentHeight = 64) :
    executeBase rng { s with registers := setAt s.registers 15 v } (mkOp 13 x y n) =
      executeBase rng s (mkOp 13 x y n) ∧
    ∀ s', executeBase rng s (mkOp 13 x y n) = .ok s' →
      (s'.registers 15 = 0 ∨ s'.registers 15 = 1) ∧
      (s'.registers 15 = 1 ↔
        ∃ r, r < n ∧ ∃ c, c < 8 ∧
          spriteBit (s.memory (s.iRegister + r)) c ∧
          s.screen (targetIdx (setAt s.registers 15 0 x) (setAt s.registers 15 0 y)
            s.currentWidth s.currentHeight r c) = true) := by
  constructor
  · rw [executeBase_mkOp rng _ 13 x y n (by omega) hx hy hn,
      executeBase_mkOp rng s 13 x y n (by omega) hx hy hn]
    rw [execDecoded_draw, execDecoded_draw]
    simp only [setAt_setAt_self]
  · intro s' hdr
    rw [executeBase_mkOp rng s 13 x y n (by omega) hx hy hn,
      execDecoded_draw] at hdr
    cases hq : drawRows s.memory s.screen 0 s.iRegister
        (setAt s.registers 15 0 x) (setAt s.registers 15 0 y)
        s.currentWidth s.currentHeight n with
    | error e => rw [hq] at hdr; exact absurd hdr (by simp)
    | ok p =>
        rw [hq] at hdr
        replace hdr := Except.ok.inj hdr
        subst hdr
        have Hinj : ∀ r1 c1 r2 c2, r1 < 16 → c1 < 8 → r2 < 16 → c2 < 8 →
            targetIdx (setAt s.registers 15 0 x) (setAt s.registers 15 0 y)
              s.currentWidth s.currentHeight r1 c1 =
            targetIdx (setAt s.registers 15 0 x) (setAt s.registers 15 0 y)
              s.currentWidth s.currentHeight r2 c2 → r1 = r2 ∧ c1 = c2 :=
          fun r1 c1 r2 c2 hr1 hc1 hr2 hc2 heq =>
            targetIdx_inj _ _ _ _ hw hh r1 c1 r2 c2 hr1 hc1 hr2 hc2 heq
        constructor
        · simpa [setAt] using drawRows_flag_cases _ _ _ _ _ _ _ _ _ _ hq
        · simpa [setAt] using
            drawRows_flag_iff _ _ _ _ _ _ _ _ Hinj n (by omega) p hq

/-- Witness for C9 at a concrete input: a one-pixel draw on a clear screen
gives the same result when the flag register is preset to 7, and resets the
previously set flag register to 0 (no collision). -/
theorem C9_witness :
    executeBase 0 { c9Base with registers := setAt c9Base.registers 15 7 }
        (mkOp 13 0 1 1) =
      executeBase 0 c9Base (mkOp 13 0 1 1) ∧
    regAfter (executeBase 0 c9Base (mkOp 13 0 1 1)) 15 = .ok 0 := by
  have hthm := C9_draw_overwrites_flag 0 c9Base 0 1 1 7 (by decide) (by decide)
    (by decide) (Or.inl rfl) (Or.inl rfl)
  refine ⟨hthm.1, ?_⟩
  obtain ⟨s', hs⟩ : ∃ t, executeBase 0 c9Base (mkOp 13 0 1 1) = .ok t := ⟨_, rfl⟩
  have h2 := hthm.2 s' hs
  have hne : s'.registers 15 ≠ 1 := by
    intro hv
    obtain ⟨r, hr, c, hc, hbit, hscr⟩ := h2.2.mp hv
    exact Bool.noConfusion hscr
  rcases h2.1 with h0 | h1
  · rw [hs]
    simp [regAfter, Except.map, h0]
  · exact absurd h1 hne
